import Mathlib

/-! Shallow embedding of `mssql-by-steve` (`src/index.ts`), the `SqlHelper`
class: a process-wide lazy singleton connection pool, one execution
primitive, and a family of result-shaping helpers, together with the
theorems settling the frozen claims about it.

JavaScript runtime values that appear as parameter values, row fields
and result fields are modelled by the inductive `JsVal`; JavaScript
truthiness and the `||` operator are modelled explicitly, since several
helpers rely on them (`|| null`, `|| 0`, `|| []`).
-/

namespace MssqlBySteve

/-- JavaScript values flowing through the helper: `undefined`, `null`,
booleans, numbers (modelled as integers; the code only compares and
defaults them) and strings. -/
inductive JsVal : Type
  | vUndefined
  | vNull
  | vBool (b : Bool)
  | vNum (n : Int)
  | vStr (s : String)
  deriving DecidableEq, Repr

/-- JavaScript truthiness of a `JsVal`. -/
def JsVal.truthy : JsVal → Bool
  | .vUndefined => false
  | .vNull => false
  | .vBool b => b
  | .vNum n => n != 0
  | .vStr s => !s.isEmpty

/-- JavaScript `a || b`. -/
def jsOr (a b : JsVal) : JsVal := if a.truthy then a else b

/-- JavaScript `x > 0` for the value kinds the code actually compares
(numbers after an `|| 0` coalesce; booleans coerce to 0/1). -/
def JsVal.gtZero : JsVal → Bool
  | .vNum n => decide (0 < n)
  | .vBool b => b
  | _ => false

/-- JavaScript `x || 0` where `x` is an optional number
(`rowsAffected[0] || 0`). -/
def jsOrNum : Option Int → Int → Int
  | some n, d => if n = 0 then d else n
  | none, d => d

/-- JavaScript `x || ""` where `x` is an optional string
(`process.env.db_user || ""`). -/
def jsOrStr : Option String → String
  | some s => if s.isEmpty then "" else s
  | none => ""

/-- A result row: ordered (column name, value) pairs. -/
abbrev Row := List (String × JsVal)

/-- JavaScript property access `row[k]`: `undefined` when the column is
missing. -/
def Row.getField (r : Row) (k : String) : JsVal :=
  match r.lookup k with
  | some v => v
  | none => .vUndefined

/-- The `mssql` driver type tag (`sql.ISqlType`), opaque to this layer:
only its presence or absence matters. -/
abbrev SqlType := String

/-- Model of `SqlParameter` from `index.ts`: name, value, optional explicit type. -/
structure SqlParameter where
  name : String
  value : JsVal
  type : Option SqlType
  deriving DecidableEq, Repr

/-- Model of `SqlConfig.options` from `index.ts`: three named optional flags plus
arbitrary extra keys (`[key: string]: any`). `none` models an absent
field. -/
structure SqlOptions where
  trustServerCertificate : Option Bool
  trustedConnection : Option Bool
  enableArithAbort : Option Bool
  extra : List (String × JsVal)
  deriving DecidableEq, Repr

/-- Model of `SqlConfig.pool` from `index.ts`. -/
structure SqlPoolOptions where
  max : Option Int
  min : Option Int
  idleTimeoutMillis : Option Int
  deriving DecidableEq, Repr

/-- Model of `SqlConfig` from `index.ts`. -/
structure SqlConfig where
  user : String
  password : String
  server : String
  database : String
  options : Option SqlOptions
  pool : Option SqlPoolOptions
  deriving DecidableEq, Repr

/-- Model of `export type QueryType = 'Text' | 'StoredProcedure'`. -/
inductive QueryType : Type
  | Text
  | StoredProcedure
  deriving DecidableEq, Repr

namespace SqlHelper

/-- The object-spread merge of connection options performed by
`initialize`: `{ trustServerCertificate: true, trustedConnection: true,
enableArithAbort: true, ...config.options }`. A caller-supplied field
overrides the default; an absent field (or an absent `options` object)
keeps it. -/
def mergedOptions (o : Option SqlOptions) : SqlOptions :=
  let c := o.getD ⟨none, none, none, []⟩
  ⟨some (c.trustServerCertificate.getD true),
   some (c.trustedConnection.getD true),
   some (c.enableArithAbort.getD true),
   c.extra⟩

/-- The object-spread merge of pool options performed by `initialize`:
`{ max: 60, min: 5, idleTimeoutMillis: 60000, ...config.pool }`. -/
def mergedPool (p : Option SqlPoolOptions) : SqlPoolOptions :=
  let c := p.getD ⟨none, none, none⟩
  ⟨some (c.max.getD 60), some (c.min.getD 5),
   some (c.idleTimeoutMillis.getD 60000)⟩

/-- Model of `SqlHelper.initialize`: stores the caller's config with defaulted
`options` and `pool` groups (`SqlHelper.config = { ...config, options:
{...}, pool: {...} }`). The returned value models the stored static
`config`. -/
def initializeConfig (config : SqlConfig) : SqlConfig :=
  { config with
      options := some (mergedOptions config.options),
      pool := some (mergedPool config.pool) }

/-- Model of `SqlHelper.initializeFromEnv`: reads `db_user`, `db_password`,
`server`, `database` from the process environment (modelled as a lookup
function returning `none` for an unset variable), defaults each with
`|| ""`, and calls `initialize`. -/
def initializeFromEnv (env : String → Option String) : SqlConfig :=
  initializeConfig
    ⟨jsOrStr (env "db_user"), jsOrStr (env "db_password"),
     jsOrStr (env "server"), jsOrStr (env "database"), none, none⟩

/-! ### Pool lifecycle (`poolPromise`, `getPool`, its `.then`/`.catch`)

The static field `poolPromise: Promise<ConnectionPool> | null` is
modelled as an explicit state: `empty` is `null`; `pending a` is a
cached promise of a still-running connection attempt named `a`;
`ready p` is a cached promise resolved with pool instance `p`.
Attempts and pools are named by natural numbers so that "same instance"
is expressible. -/

/-- The state of the static `poolPromise` field. -/
inductive PoolSt : Type
  | empty
  | pending (a : Nat)
  | ready (p : Nat)
  deriving DecidableEq, Repr

/-- What one `getPool` call does, besides updating `poolPromise`:
either it starts a fresh connection attempt — forwarding the current
configuration (`SqlHelper.config!`, possibly absent) to
`new sql.ConnectionPool(...)` — or it returns the already-cached
in-flight attempt, or the already-resolved pool. The code has no
outcome that rejects an absent configuration. -/
inductive GetPoolOutcome : Type
  | started (cfg : Option SqlConfig) (a : Nat)
  | awaiting (a : Nat)
  | pool (p : Nat)
  deriving DecidableEq, Repr

/-- Model of `SqlHelper.getPool`: if `poolPromise` is `null`, start a connection
attempt with the current config (non-null-asserted, so forwarded even
when absent) and cache it; otherwise return the cached promise.
`fresh` names the newly started attempt. -/
def getPool (cfg : Option SqlConfig) (st : PoolSt) (fresh : Nat) :
    PoolSt × GetPoolOutcome :=
  match st with
  | .empty => (.pending fresh, .started cfg fresh)
  | .pending a => (.pending a, .awaiting a)
  | .ready p => (.ready p, .pool p)

/-- How a pending connection attempt resolves: the driver either yields
a pool instance or an error (errors named by naturals). -/
inductive ConnResult : Type
  | ok (p : Nat)
  | err (e : Nat)
  deriving DecidableEq, Repr

/-- The `.then`/`.catch` continuation `getPool` attaches to the
connection attempt. On success the cached promise resolves with the
pool (`.then(pool => pool)`), so `poolPromise` stays cached as that
pool. On failure the handler sets `poolPromise = null` and rethrows the
error unchanged (`.catch(err => { SqlHelper.poolPromise = null; throw
err; })`). The second component is what awaiting callers receive. -/
def settle (st : PoolSt) (r : ConnResult) : PoolSt × ConnResult :=
  match st, r with
  | .pending _, .ok p => (.ready p, .ok p)
  | .pending _, .err e => (.empty, .err e)
  | s, r => (s, r)

/-- A sequence of `getPool` calls from a given state, each naming a
fresh attempt id it would use if it had to start one; returns the final
state and each call's outcome. -/
def runCalls (cfg : Option SqlConfig) (st : PoolSt) :
    List Nat → PoolSt × List GetPoolOutcome
  | [] => (st, [])
  | f :: fs =>
    let s1 := getPool cfg st f
    let s2 := runCalls cfg s1.1 fs
    (s2.1, s1.2 :: s2.2)

/-! ### Execution primitive and parameter binding -/

/-- One bound input parameter on a driver request
(`request.input(name, [type,] value)`). -/
structure BoundInput where
  name : String
  type : Option SqlType
  value : JsVal
  deriving DecidableEq, Repr

/-- The normalized driver result `IResult<T>`: record sets (with
`recordsets` possibly absent), per-statement affected-row counts, and
the procedure return value (`vUndefined` when the driver sets none). -/
structure IResult where
  recordsets : Option (List (List Row))
  rowsAffected : List Int
  returnValue : JsVal
  deriving DecidableEq, Repr

/-- Model of `result.recordset`: the first record set (`recordsets[0]`),
`undefined` when there is none. -/
def IResult.recordset (r : IResult) : Option (List Row) :=
  (r.recordsets.getD []).head?

/-- The database/driver boundary: given the command kind
(`request.execute` for `StoredProcedure`, `request.query` for `Text`),
the final query string, and the bound inputs, produce the normalized
result. Claims quantify over this oracle. -/
abbrev Db := QueryType → String → List BoundInput → IResult

/-- Parameter binding inside `executeQuery`: each parameter is bound
under its name verbatim, with the explicit type when one is given. -/
def bindParams : Option (List SqlParameter) → List BoundInput
  | none => []
  | some ps => ps.map fun p => ⟨p.name, p.type, p.value⟩

/-- Model of `SqlHelper.executeQuery`: acquire the pool, create a request, bind
the parameters, and dispatch on the command kind. Errors are logged and
rethrown unchanged, so the success path is a pure projection of the
driver oracle. -/
def executeQuery (db : Db) (ct : QueryType) (q : String)
    (ps : Option (List SqlParameter)) : IResult :=
  db ct q (bindParams ps)

/-! ### Result shapers -/

/-- Model of `SqlHelper.executeDataset`: `result.recordset || []` (an array is
always truthy in JavaScript, so only an absent record set is replaced
by `[]`). -/
def executeDataset (db : Db) (ct : QueryType) (q : String)
    (ps : Option (List SqlParameter)) : List Row :=
  ((executeQuery db ct q ps).recordset).getD []

/-- Model of `SqlHelper.executeMultipleDatasets`: `result.recordsets || []`. -/
def executeMultipleDatasets (db : Db) (ct : QueryType) (q : String)
    (ps : Option (List SqlParameter)) : List (List Row) :=
  ((executeQuery db ct q ps).recordsets).getD []

/-- The optional chain `result.recordset?.[0]?.value`. -/
def scalarChain (r : IResult) : JsVal :=
  match r.recordset with
  | none => .vUndefined
  | some rows =>
    match rows.head? with
    | none => .vUndefined
    | some row => row.getField "value"

/-- Model of `SqlHelper.executeScalar`: `result.recordset?.[0]?.value || null`. -/
def executeScalar (db : Db) (ct : QueryType) (q : String)
    (ps : Option (List SqlParameter)) : JsVal :=
  jsOr (scalarChain (executeQuery db ct q ps)) .vNull

/-- The query actually executed by `executeInsert`: a `Text` command
gets `; SELECT SCOPE_IDENTITY() AS ${identityColumnName}` appended; a
stored procedure is passed through unmodified. -/
def insertQuery (ct : QueryType) (q idCol : String) : String :=
  match ct with
  | .Text => q ++ "; SELECT SCOPE_IDENTITY() AS " ++ idCol
  | .StoredProcedure => q

/-- The optional chain `result.recordset?.[0]?.[identityColumnName]`. -/
def identityChain (r : IResult) (idCol : String) : JsVal :=
  match r.recordset with
  | none => .vUndefined
  | some rows =>
    match rows.head? with
    | none => .vUndefined
    | some row => row.getField idCol

/-- Model of `SqlHelper.executeInsert` (source default for `idCol` is `"Id"`):
executes the possibly-suffixed query and returns
`result.recordset?.[0]?.[identityColumnName] || 0`. -/
def executeInsert (db : Db) (ct : QueryType) (q : String)
    (ps : Option (List SqlParameter)) (idCol : String) : JsVal :=
  jsOr (identityChain (executeQuery db ct (insertQuery ct q idCol) ps) idCol)
    (.vNum 0)

/-- Model of `SqlHelper.executeUpdate`: `result.rowsAffected[0] || 0`. -/
def executeUpdate (db : Db) (ct : QueryType) (q : String)
    (ps : Option (List SqlParameter)) : Int :=
  jsOrNum (executeQuery db ct q ps).rowsAffected.head? 0

/-- Model of `SqlHelper.executeDelete`: `result.rowsAffected[0] || 0`. -/
def executeDelete (db : Db) (ct : QueryType) (q : String)
    (ps : Option (List SqlParameter)) : Int :=
  jsOrNum (executeQuery db ct q ps).rowsAffected.head? 0

/-- The SQL text interpolated by `exists` (a template literal: the
source's newlines and indentation are part of the string). -/
def existsQuery (tableName whereClause : String) : String :=
  "SELECT COUNT(1) as value\n             FROM " ++ tableName ++
    "\n             WHERE " ++ whereClause

/-- Model of `SqlHelper.exists`: `executeScalar('Text', existsQuery, params)`,
then `(result || 0) > 0`. -/
def «exists» (db : Db) (tableName whereClause : String)
    (ps : Option (List SqlParameter)) : Bool :=
  (jsOr (executeScalar db .Text (existsQuery tableName whereClause) ps)
    (.vNum 0)).gtZero

/-- The SQL text interpolated by `count`: the ternary
`whereClause ? ... : ...` tests JavaScript truthiness, so an absent or
empty where clause yields the unfiltered query. -/
def countQuery (tableName : String) (whereClause : Option String) : String :=
  if (whereClause.getD "").isEmpty then
    "SELECT COUNT(1) as value\n               FROM " ++ tableName
  else
    "SELECT COUNT(1) as value\n               FROM " ++ tableName ++
      "\n               WHERE " ++ whereClause.getD ""

/-- Model of `SqlHelper.count`: `executeScalar('Text', query, params)`, then
`result || 0`. -/
def count (db : Db) (tableName : String) (whereClause : Option String)
    (ps : Option (List SqlParameter)) : JsVal :=
  jsOr (executeScalar db .Text (countQuery tableName whereClause) ps) (.vNum 0)

/-- JavaScript `name.startsWith('@')`: the first character is `@`. -/
def startsWithAtSign (name : String) : Bool :=
  name.data.head? == some '@'

/-- JavaScript `name.substring(1)`: the name without its first
character. -/
def substringFromOne (name : String) : String :=
  ⟨name.data.tail⟩

/-- The name normalization of `executeWithReturnValue`:
`param.name.startsWith('@') ? param.name.substring(1) : param.name`. -/
def stripAtSign (name : String) : String :=
  if startsWithAtSign name then substringFromOne name else name

/-- Parameter binding inside `executeWithReturnValue`: like `bindParams`
but with the leading `@` stripped from each name. -/
def bindReturnValueParams (ps : List SqlParameter) : List BoundInput :=
  ps.map fun p => ⟨stripAtSign p.name, p.type, p.value⟩

/-- Model of `SqlHelper.executeWithReturnValue` (source default for `ps` is
`[]`): binds the `@`-stripped parameters, always executes the query as
a stored procedure (`request.execute(query)`), and returns
`result.returnValue || 0`. -/
def executeWithReturnValue (db : Db) (q : String)
    (ps : List SqlParameter) : JsVal :=
  jsOr (db .StoredProcedure q (bindReturnValueParams ps)).returnValue (.vNum 0)

/-- Modelled from the spec: the specification's version of pool
acquisition for the configuration-absent case — "acquiring with no
configuration is a programming error (fails with ConfigurationError)".
The source has no such check (and defines no `ConfigurationError`);
this definition follows the spec's words, for comparison with
`getPool`. -/
def specGetPool (cfg : Option SqlConfig) (st : PoolSt) (fresh : Nat) :
    Except String (PoolSt × GetPoolOutcome) :=
  match cfg with
  | none => .error "ConfigurationError"
  | some c => .ok (getPool (some c) st fresh)

/-! ### Helper lemmas -/

/-- Any sequence of `getPool` calls against a pending attempt leaves the
state unchanged and hands every caller the same cached attempt. -/
theorem runCalls_pending (cfg : Option SqlConfig) (a : Nat) (fs : List Nat) :
    runCalls cfg (.pending a) fs = (.pending a, fs.map fun _ => .awaiting a) := by
  induction fs with
  | nil => rfl
  | cons f fs ih => simp [runCalls, getPool, ih]

/-- Any sequence of `getPool` calls against a resolved pool leaves the
state unchanged and hands every caller the same pool instance. -/
theorem runCalls_ready (cfg : Option SqlConfig) (p : Nat) (fs : List Nat) :
    runCalls cfg (.ready p) fs = (.ready p, fs.map fun _ => .pool p) := by
  induction fs with
  | nil => rfl
  | cons f fs ih => simp [runCalls, getPool, ih]

/-! ### Claims -/

/-- C1: `getPool` is a lazy singleton. With nothing cached, one call
starts exactly one creation attempt and caches it; calls during a
pending attempt all receive that same attempt without starting another;
once an attempt succeeds, every subsequent call returns the same cached
pool instance and the state stays `ready` (Ready stays Ready). -/
theorem getPool_lazy_singleton :
    (∀ (cfg : Option SqlConfig) (fresh : Nat),
      getPool cfg .empty fresh = (.pending fresh, .started cfg fresh)) ∧
    (∀ (cfg : Option SqlConfig) (a : Nat) (fs : List Nat),
      runCalls cfg (.pending a) fs = (.pending a, fs.map fun _ => .awaiting a)) ∧
    (∀ (a p : Nat), settle (.pending a) (.ok p) = (.ready p, .ok p)) ∧
    (∀ (cfg : Option SqlConfig) (p : Nat) (fs : List Nat),
      runCalls cfg (.ready p) fs = (.ready p, fs.map fun _ => .pool p)) :=
  ⟨fun _ _ => rfl, runCalls_pending, fun _ _ => rfl, runCalls_ready⟩

/-- C2: when a pool-creation attempt fails, the `.catch` handler resets
the cached state to empty and rethrows the error unchanged to the
caller, and the next `getPool` call then starts a new, independent
creation attempt (the fresh attempt, not a replay of the failed one). -/
theorem getPool_failure_resets :
    ∀ (a e fresh : Nat) (cfg : Option SqlConfig),
      settle (.pending a) (.err e) = (.empty, .err e) ∧
      getPool cfg (settle (.pending a) (.err e)).1 fresh =
        (.pending fresh, .started cfg fresh) :=
  fun _ _ _ _ => ⟨rfl, rfl⟩

/-- C3 counterexample: with no configuration set and nothing cached,
`getPool` does not fail with a `ConfigurationError` — it proceeds,
starting a connection attempt that forwards the absent configuration
(the `config!` non-null assertion); the spec-modelled acquisition
errors instead. -/
theorem getPool_no_config_counterexample :
    getPool none PoolSt.empty 0 =
      (PoolSt.pending 0, GetPoolOutcome.started none 0) ∧
    specGetPool none PoolSt.empty 0 = Except.error "ConfigurationError" :=
  ⟨rfl, rfl⟩

/-- C3 amended: if no configuration has been set, pool acquisition does
not fail with a distinct `ConfigurationError` (the source defines no
such error and performs no check); `getPool` proceeds, starting a
creation attempt that forwards the absent configuration to the driver,
so any failure surfaces only as the driver's own connection error. -/
theorem getPool_no_config_amended :
    ∀ fresh : Nat,
      getPool none .empty fresh = (.pending fresh, .started none fresh) :=
  fun _ => rfl

/-- A driver result whose first record set's first row carries a
`value` field equal to 0 (for claim C4). -/
def scalarZeroResult : IResult :=
  ⟨some [[[("value", JsVal.vNum 0)]]], [], .vUndefined⟩

/-- A driver result whose first record set's first row carries a
`value` field equal to 7 (for claim C4). -/
def scalarSevenResult : IResult :=
  ⟨some [[[("value", JsVal.vNum 7)]]], [], .vUndefined⟩

/-- C4 counterexample: a first row whose `value` field is present and
equal to the number 0; `executeScalar` returns `null`, not that value,
because of the `|| null` coalesce. -/
theorem executeScalar_falsy_counterexample :
    scalarChain scalarZeroResult = JsVal.vNum 0 ∧
    executeScalar (fun _ _ _ => scalarZeroResult) QueryType.Text
      "SELECT 0 AS value" none = JsVal.vNull ∧
    JsVal.vNull ≠ JsVal.vNum 0 := by
  refine ⟨rfl, rfl, ?_⟩
  decide

/-- C4 amended: `executeScalar` returns `null` when the first record
set has zero rows; when the first row's `value` field is present it
returns that value if the value is truthy, and `null` otherwise (a
falsy value — 0, false, empty string, null — is coalesced to `null` by
`|| null`). -/
theorem executeScalar_amended (db : Db) (ct : QueryType) (q : String)
    (ps : Option (List SqlParameter)) :
    ((executeQuery db ct q ps).recordset = some [] →
      executeScalar db ct q ps = JsVal.vNull) ∧
    (∀ (row : Row) (rest : List Row),
      (executeQuery db ct q ps).recordset = some (row :: rest) →
      executeScalar db ct q ps =
        if (row.getField "value").truthy then row.getField "value"
        else JsVal.vNull) := by
  constructor
  · intro h
    simp [executeScalar, scalarChain, h, jsOr, JsVal.truthy]
  · intro row rest h
    simp [executeScalar, scalarChain, h, jsOr]

/-- Witness for the amended C4 theorem at a concrete truthy row and a
concrete empty record set. -/
theorem executeScalar_amended_witness :
    executeScalar (fun _ _ _ => scalarSevenResult) QueryType.Text
      "SELECT 7 AS value" none = JsVal.vNum 7 ∧
    executeScalar (fun _ _ _ => (⟨some [[]], [], .vUndefined⟩ : IResult))
      QueryType.Text "SELECT 1 WHERE 1 = 0" none = JsVal.vNull := by
  constructor
  · have h := (executeScalar_amended (fun _ _ _ => scalarSevenResult)
      QueryType.Text "SELECT 7 AS value" none).2 [("value", JsVal.vNum 7)] [] rfl
    exact h.trans (by decide)
  · exact (executeScalar_amended (fun _ _ _ => (⟨some [[]], [], .vUndefined⟩ : IResult))
      QueryType.Text "SELECT 1 WHERE 1 = 0" none).1 rfl

/-- C5: `executeInsert` on a `Text` command executes the query with
exactly one identity-fetch clause
`; SELECT SCOPE_IDENTITY() AS <identityColumnName>` appended, and on a
`StoredProcedure` command passes the query string through unmodified;
the returned value is the identity field of the first row of the first
record set (a numeric field is returned exactly, and 0 is returned when
the row or record set is absent). -/
theorem executeInsert_identity (db : Db) (q idCol : String)
    (ps : Option (List SqlParameter)) :
    insertQuery .Text q idCol =
      q ++ "; SELECT SCOPE_IDENTITY() AS " ++ idCol ∧
    insertQuery .StoredProcedure q idCol = q ∧
    (∀ (ct : QueryType) (row : Row) (rest : List Row) (n : Int),
      (executeQuery db ct (insertQuery ct q idCol) ps).recordset =
        some (row :: rest) →
      row.getField idCol = JsVal.vNum n →
      executeInsert db ct q ps idCol = JsVal.vNum n) ∧
    (∀ ct : QueryType,
      (executeQuery db ct (insertQuery ct q idCol) ps).recordset = some [] →
      executeInsert db ct q ps idCol = JsVal.vNum 0) ∧
    (∀ ct : QueryType,
      (executeQuery db ct (insertQuery ct q idCol) ps).recordset = none →
      executeInsert db ct q ps idCol = JsVal.vNum 0) := by
  refine ⟨rfl, rfl, ?_, ?_, ?_⟩
  · intro ct row rest n h hv
    simp only [executeInsert, identityChain, h, jsOr, List.head?_cons]
    rw [hv]
    by_cases hn : n = 0 <;> simp [JsVal.truthy, hn]
  · intro ct h
    simp [executeInsert, identityChain, h, jsOr, JsVal.truthy]
  · intro ct h
    simp [executeInsert, identityChain, h, jsOr, JsVal.truthy]

/-- Witness for the C5 theorem at a concrete insert whose generated
identity is 42, and at a concrete result with no record set. -/
theorem executeInsert_identity_witness :
    executeInsert (fun _ _ _ => (⟨some [[[("Id", JsVal.vNum 42)]]], [1], .vUndefined⟩ : IResult))
      QueryType.Text "INSERT INTO T (a) VALUES (1)" none "Id" = JsVal.vNum 42 ∧
    executeInsert (fun _ _ _ => (⟨none, [], .vUndefined⟩ : IResult))
      QueryType.Text "INSERT INTO T (a) VALUES (1)" none "Id" = JsVal.vNum 0 := by
  constructor
  · exact (executeInsert_identity
      (fun _ _ _ => (⟨some [[[("Id", JsVal.vNum 42)]]], [1], .vUndefined⟩ : IResult))
      "INSERT INTO T (a) VALUES (1)" "Id" none).2.2.1 .Text
      [("Id", JsVal.vNum 42)] [] 42 rfl (by decide)
  · exact (executeInsert_identity (fun _ _ _ => (⟨none, [], .vUndefined⟩ : IResult))
      "INSERT INTO T (a) VALUES (1)" "Id" none).2.2.2.2 .Text rfl

/-- C7: `executeDataset` returns the empty list — never a null or
undefined value, as its return type is a plain list — when the first
record set has zero rows or is absent, and `executeMultipleDatasets`
returns the empty list of lists when the record sets are absent. -/
theorem executeDataset_empty (db : Db) (ct : QueryType) (q : String)
    (ps : Option (List SqlParameter)) :
    ((executeQuery db ct q ps).recordset = some [] ∨
        (executeQuery db ct q ps).recordset = none →
      executeDataset db ct q ps = []) ∧
    ((executeQuery db ct q ps).recordsets = none →
      executeMultipleDatasets db ct q ps = []) := by
  constructor
  · rintro (h | h) <;> simp [executeDataset, h]
  · intro h
    simp [executeMultipleDatasets, h]

/-- Witness for the C7 theorem at a concrete result with absent record
sets. -/
theorem executeDataset_empty_witness :
    executeDataset (fun _ _ _ => (⟨none, [], .vUndefined⟩ : IResult))
      QueryType.Text "DELETE FROM T" none = [] ∧
    executeMultipleDatasets (fun _ _ _ => (⟨none, [], .vUndefined⟩ : IResult))
      QueryType.Text "DELETE FROM T" none = [] := by
  constructor
  · exact (executeDataset_empty (fun _ _ _ => (⟨none, [], .vUndefined⟩ : IResult))
      QueryType.Text "DELETE FROM T" none).1 (Or.inr rfl)
  · exact (executeDataset_empty (fun _ _ _ => (⟨none, [], .vUndefined⟩ : IResult))
      QueryType.Text "DELETE FROM T" none).2 rfl

/-- C6: `executeWithReturnValue` strips one leading `@` from every
parameter name before binding (and binds names without the marker
verbatim), consults the driver only through the stored-procedure path,
and returns 0 when the procedure sets no explicit return code. -/
theorem executeWithReturnValue_spec (q : String) (ps : List SqlParameter) :
    bindReturnValueParams ps =
      ps.map (fun p => ⟨stripAtSign p.name, p.type, p.value⟩) ∧
    (∀ p : SqlParameter, startsWithAtSign p.name = true →
      (stripAtSign p.name).data = p.name.data.tail) ∧
    (∀ p : SqlParameter, startsWithAtSign p.name = false →
      stripAtSign p.name = p.name) ∧
    (∀ db db2 : Db,
      (∀ (s : String) (bs : List BoundInput),
        db .StoredProcedure s bs = db2 .StoredProcedure s bs) →
      executeWithReturnValue db q ps = executeWithReturnValue db2 q ps) ∧
    (∀ db : Db,
      (db .StoredProcedure q (bindReturnValueParams ps)).returnValue =
        JsVal.vUndefined →
      executeWithReturnValue db q ps = JsVal.vNum 0) := by
  refine ⟨rfl, ?_, ?_, ?_, ?_⟩
  · intro p h
    simp [stripAtSign, h, substringFromOne]
  · intro p h
    simp [stripAtSign, h]
  · intro db db2 h
    simp [executeWithReturnValue, h]
  · intro db h
    simp [executeWithReturnValue, h, jsOr, JsVal.truthy]

/-- Witness for the C6 theorem: a marked name `@x` is bound as `x`, an
unmarked name is bound verbatim, and a procedure with no explicit
return code yields 0. -/
theorem executeWithReturnValue_spec_witness :
    (stripAtSign "@x").data = "@x".data.tail ∧
    stripAtSign "y" = "y" ∧
    executeWithReturnValue (fun _ _ _ => (⟨none, [], .vUndefined⟩ : IResult))
      "MyProc" [⟨"@x", JsVal.vNum 1, none⟩] = JsVal.vNum 0 := by
  refine ⟨?_, ?_, ?_⟩
  · exact (executeWithReturnValue_spec "MyProc" [⟨"@x", JsVal.vNum 1, none⟩]).2.1
      ⟨"@x", JsVal.vNum 1, none⟩ (by decide)
  · exact (executeWithReturnValue_spec "MyProc" [⟨"@x", JsVal.vNum 1, none⟩]).2.2.1
      ⟨"y", JsVal.vNull, none⟩ (by decide)
  · exact (executeWithReturnValue_spec "MyProc" [⟨"@x", JsVal.vNum 1, none⟩]).2.2.2.2
      (fun _ _ _ => (⟨none, [], .vUndefined⟩ : IResult)) rfl

/-- C8: `exists` runs `SELECT COUNT(1) as value FROM <table> WHERE
<whereClause>` through `executeScalar` and returns true exactly when
the returned count is greater than 0 (false when no value comes back);
`count` returns the returned count, builds its query without a WHERE
filter when no where clause is supplied, and returns 0 when no value
comes back. -/
theorem exists_count_spec (db : Db) (t w : String) (w? : Option String)
    (ps : Option (List SqlParameter)) :
    existsQuery t w = "SELECT COUNT(1) as value\n             FROM " ++ t ++
      "\n             WHERE " ++ w ∧
    (∀ (row : Row) (rest : List Row) (n : Int),
      (executeQuery db .Text (existsQuery t w) ps).recordset =
        some (row :: rest) →
      row.getField "value" = JsVal.vNum n →
      «exists» db t w ps = decide (0 < n)) ∧
    ((executeQuery db .Text (existsQuery t w) ps).recordset = some [] ∨
        (executeQuery db .Text (existsQuery t w) ps).recordset = none →
      «exists» db t w ps = false) ∧
    countQuery t none = "SELECT COUNT(1) as value\n               FROM " ++ t ∧
    (∀ (row : Row) (rest : List Row) (n : Int),
      (executeQuery db .Text (countQuery t w?) ps).recordset =
        some (row :: rest) →
      row.getField "value" = JsVal.vNum n →
      count db t w? ps = JsVal.vNum n) ∧
    ((executeQuery db .Text (countQuery t w?) ps).recordset = some [] ∨
        (executeQuery db .Text (countQuery t w?) ps).recordset = none →
      count db t w? ps = JsVal.vNum 0) := by
  refine ⟨rfl, ?_, ?_, rfl, ?_, ?_⟩
  · intro row rest n h hv
    simp only [«exists», executeScalar, scalarChain, h, List.head?_cons]
    rw [hv]
    by_cases hn : n = 0 <;>
      simp [jsOr, JsVal.truthy, JsVal.gtZero, hn]
  · rintro (h | h) <;>
      simp [«exists», executeScalar, scalarChain, h, jsOr, JsVal.truthy,
        JsVal.gtZero]
  · intro row rest n h hv
    simp only [count, executeScalar, scalarChain, h, List.head?_cons]
    rw [hv]
    by_cases hn : n = 0 <;> simp [jsOr, JsVal.truthy, hn]
  · rintro (h | h) <;>
      simp [count, executeScalar, scalarChain, h, jsOr, JsVal.truthy]

/-- Witness for the C8 theorem: a count of 3 makes `exists` true and
`count` 3; a count of 0 makes `exists` false; an absent value makes
`count` 0. -/
theorem exists_count_spec_witness :
    «exists» (fun _ _ _ => (⟨some [[[("value", JsVal.vNum 3)]]], [], .vUndefined⟩ : IResult))
      "Users" "Id = @id" none = true ∧
    «exists» (fun _ _ _ => (⟨some [[[("value", JsVal.vNum 0)]]], [], .vUndefined⟩ : IResult))
      "Users" "Id = @id" none = false ∧
    count (fun _ _ _ => (⟨some [[[("value", JsVal.vNum 3)]]], [], .vUndefined⟩ : IResult))
      "Orders" none none = JsVal.vNum 3 ∧
    count (fun _ _ _ => (⟨some [[]], [], .vUndefined⟩ : IResult))
      "Orders" none none = JsVal.vNum 0 := by
  refine ⟨?_, ?_, ?_, ?_⟩
  · have h := (exists_count_spec
      (fun _ _ _ => (⟨some [[[("value", JsVal.vNum 3)]]], [], .vUndefined⟩ : IResult))
      "Users" "Id = @id" none none).2.1 [("value", JsVal.vNum 3)] [] 3 rfl (by decide)
    exact h.trans (by decide)
  · have h := (exists_count_spec
      (fun _ _ _ => (⟨some [[[("value", JsVal.vNum 0)]]], [], .vUndefined⟩ : IResult))
      "Users" "Id = @id" none none).2.1 [("value", JsVal.vNum 0)] [] 0 rfl (by decide)
    exact h.trans (by decide)
  · exact (exists_count_spec
      (fun _ _ _ => (⟨some [[[("value", JsVal.vNum 3)]]], [], .vUndefined⟩ : IResult))
      "Orders" "" none none).2.2.2.2.1 [("value", JsVal.vNum 3)] [] 3 rfl (by decide)
  · exact (exists_count_spec
      (fun _ _ _ => (⟨some [[]], [], .vUndefined⟩ : IResult))
      "Orders" "" none none).2.2.2.2.2 (Or.inl rfl)

/-- C9: `initialize` stores the caller's configuration with option
defaults trustServerCertificate, trustedConnection and enableArithAbort
all true and pool defaults max 60, min 5, idleTimeoutMillis 60000,
every caller-supplied field overriding its default; and
`initializeFromEnv` reads `db_user`, `db_password`, `server`,
`database` from the environment, defaults each absent variable to the
empty string, and calls `initialize`. -/
theorem initialize_defaults (c : SqlConfig) (env : String → Option String) :
    (initializeConfig c).user = c.user ∧
    (initializeConfig c).password = c.password ∧
    (initializeConfig c).server = c.server ∧
    (initializeConfig c).database = c.database ∧
    (c.options = none →
      (initializeConfig c).options = some ⟨some true, some true, some true, []⟩) ∧
    (∀ o : SqlOptions, c.options = some o →
      (initializeConfig c).options = some
        ⟨some (o.trustServerCertificate.getD true),
         some (o.trustedConnection.getD true),
         some (o.enableArithAbort.getD true), o.extra⟩) ∧
    (c.pool = none →
      (initializeConfig c).pool = some ⟨some 60, some 5, some 60000⟩) ∧
    (∀ pl : SqlPoolOptions, c.pool = some pl →
      (initializeConfig c).pool = some
        ⟨some (pl.max.getD 60), some (pl.min.getD 5),
         some (pl.idleTimeoutMillis.getD 60000)⟩) ∧
    initializeFromEnv env = initializeConfig
      ⟨jsOrStr (env "db_user"), jsOrStr (env "db_password"),
       jsOrStr (env "server"), jsOrStr (env "database"), none, none⟩ ∧
    jsOrStr none = "" := by
  refine ⟨rfl, rfl, rfl, rfl, ?_, ?_, ?_, ?_, rfl, rfl⟩
  · intro h
    simp [initializeConfig, mergedOptions, h]
  · intro o h
    simp [initializeConfig, mergedOptions, h]
  · intro h
    simp [initializeConfig, mergedPool, h]
  · intro pl h
    simp [initializeConfig, mergedPool, h]

/-- Witness for the C9 theorem at a concrete configuration that
overrides trustServerCertificate and pool.max while leaving the other
fields to their defaults, and at an empty environment. -/
theorem initialize_defaults_witness :
    (initializeConfig ⟨"u", "pw", "s", "d",
        some ⟨some false, none, none, []⟩, some ⟨some 10, none, none⟩⟩).options =
      some ⟨some false, some true, some true, []⟩ ∧
    (initializeConfig ⟨"u", "pw", "s", "d",
        some ⟨some false, none, none, []⟩, some ⟨some 10, none, none⟩⟩).pool =
      some ⟨some 10, some 5, some 60000⟩ ∧
    (initializeFromEnv (fun _ => none)).user = "" := by
  refine ⟨?_, ?_, ?_⟩
  · exact (initialize_defaults ⟨"u", "pw", "s", "d",
      some ⟨some false, none, none, []⟩, some ⟨some 10, none, none⟩⟩
      (fun _ => none)).2.2.2.2.2.1 ⟨some false, none, none, []⟩ rfl
  · exact (initialize_defaults ⟨"u", "pw", "s", "d",
      some ⟨some false, none, none, []⟩, some ⟨some 10, none, none⟩⟩
      (fun _ => none)).2.2.2.2.2.2.2.1 ⟨some 10, none, none⟩ rfl
  · have h := (initialize_defaults ⟨"", "", "", "", none, none⟩
      (fun _ => none)).2.2.2.2.2.2.2.2.1
    rw [h]
    rfl

/-- C10: `executeUpdate` and `executeDelete` are extensionally equal;
both project the first entry of the result's affected-row-count list,
defaulting to 0 when that entry is absent (and 0 stays 0). -/
theorem executeUpdate_eq_executeDelete :
    (∀ (db : Db) (ct : QueryType) (q : String)
        (ps : Option (List SqlParameter)),
      executeUpdate db ct q ps = executeDelete db ct q ps) ∧
    (∀ (db : Db) (ct : QueryType) (q : String)
        (ps : Option (List SqlParameter)),
      executeUpdate db ct q ps =
        ((executeQuery db ct q ps).rowsAffected).headD 0) := by
  constructor
  · intro db ct q ps
    rfl
  · intro db ct q ps
    cases hl : (executeQuery db ct q ps).rowsAffected with
    | nil => simp [executeUpdate, hl, jsOrNum]
    | cons n l =>
      by_cases hn : n = 0 <;> simp [executeUpdate, hl, jsOrNum, hn]

end SqlHelper

end MssqlBySteve
